import Mathlib

/-!
Verification of the TypelessData crate: a type-erased byte region with a
validity-checked read/write/take/replace protocol and a range-normalization
layer for sub-slicing.

A region is modelled as a `List Nat` of bytes.  A sized Rust value of type
`T` is modelled by its byte representation, a `List Nat` whose length is
`size_of::<T>()`.  Rust `usize` arithmetic is modelled over `Nat` with the
overflow boundary `USIZE = 2 ^ 64` made explicit wherever the source calls
`checked_add` or a saturating operation.  Pointers returned by the read
family are modelled as byte offsets from the base of the region.
-/

/-- The number of values of the 64-bit `usize` type. -/
def USIZE : Nat := 2 ^ 64

/-- Rust `usize::checked_add`: `none` exactly when the mathematical sum
does not fit in a `usize`. -/
def checkedAdd (a b : Nat) : Option Nat :=
  if a + b < USIZE then some (a + b) else none

/-- Rust `usize::saturating_add`, clamping at `usize::MAX`. -/
def saturatingAdd (a b : Nat) : Nat :=
  min (a + b) (USIZE - 1)

/-- The error struct of `src/idx.rs`: the rejected offset, the capacity of
the region, and the size of the value that did not fit. -/
structure IdxError where
  idx : Nat
  data_size : Nat
  type_size : Nat
  deriving DecidableEq

/-- Rust `Result<T, E>` with its two constructors. -/
inductive RustResult (T E : Type) where
  | Ok : T → RustResult T E
  | Err : E → RustResult T E
  deriving DecidableEq

/-- The bounds test inlined at the top of every checked `DataSlice`
operation in `src/slice.rs`: the operation errors iff
`idx.checked_add(size)` overflows or the sum is `>= self.size()`. -/
def boundsFail (cap idx size : Nat) : Bool :=
  match checkedAdd idx size with
  | some s => cap ≤ s
  | none => true

/-- The byte-copy loop `while at < len { inner[at + idx] = src[at] }` used
by the write family: successive bytes of the source are stored at
successive offsets starting at `idx`. -/
def storeBytes : List Nat → Nat → List Nat → List Nat
  | data, _, [] => data
  | data, idx, b :: rest => storeBytes (data.set idx b) (idx + 1) rest

/-- The `size` bytes of a region starting at byte offset `off`, as read by
`copy_from_nonoverlapping(base.add(off), size)`. -/
def takeBytes (data : List Nat) (off size : Nat) : List Nat :=
  (data.drop off).take size

/-- The fill loop `while at < size { inner[at + idx] = byte }` used by
`write_zeroes_unchecked` and `write_ones_unchecked`. -/
def fillBytes : List Nat → Nat → Nat → Nat → List Nat
  | data, _, 0, _ => data
  | data, idx, s + 1, b => fillBytes (data.set idx b) (idx + 1) s b

/-- `DataSlice::write` (src/slice.rs): checks the bounds, then copies the
byte representation of the value into the region at byte offset `idx`.
On failure the value is handed back inside the error and the region is
untouched; the pair returned here is the final region state together with
the Rust return value. -/
def DataSlice.write (data : List Nat) (idx : Nat) (value : List Nat) :
    List Nat × RustResult Unit (List Nat × IdxError) :=
  if boundsFail data.length idx value.length then
    (data, .Err (value, ⟨idx, data.length, value.length⟩))
  else
    (storeBytes data idx value, .Ok ())

/-- `DataSlice::write_zeroes` (src/slice.rs): checks the bounds, then
fills `size` bytes starting at `idx` with `0x00`. -/
def DataSlice.write_zeroes (data : List Nat) (idx size : Nat) :
    List Nat × RustResult Unit IdxError :=
  if boundsFail data.length idx size then
    (data, .Err ⟨idx, data.length, size⟩)
  else
    (fillBytes data idx size 0, .Ok ())

/-- `DataSlice::write_ones` (src/slice.rs): checks the bounds, then fills
`size` bytes starting at `idx` with `0xFF`. -/
def DataSlice.write_ones (data : List Nat) (idx size : Nat) :
    List Nat × RustResult Unit IdxError :=
  if boundsFail data.length idx size then
    (data, .Err ⟨idx, data.length, size⟩)
  else
    (fillBytes data idx size 255, .Ok ())

/-- `DataSlice::read::<T>` (src/slice.rs): checks `idx + size_of::<T>()`
against the region size, then returns the pointer
`(&self.inner as *const [u8]).cast::<T>().add(idx)`.  Casting the base
pointer to `*const T` before `add(idx)` makes the returned pointer sit at
byte offset `idx * size_of::<T>()` from the base; the returned `Nat` is
that byte offset.  `s` stands for `size_of::<T>()`. -/
def DataSlice.read (s : Nat) (data : List Nat) (idx : Nat) :
    RustResult Nat IdxError :=
  if boundsFail data.length idx s then
    .Err ⟨idx, data.length, s⟩
  else
    .Ok (idx * s)

/-- `DataSlice::take::<T>` (src/slice.rs): checks the bounds, then copies
`size_of::<T>()` bytes out of the region starting at byte offset `idx`
(the copy source is `cast::<u8>().add(idx)`), without clearing them.
`s` stands for `size_of::<T>()`. -/
def DataSlice.take (s : Nat) (data : List Nat) (idx : Nat) :
    RustResult (List Nat) IdxError :=
  if boundsFail data.length idx s then
    .Err ⟨idx, data.length, s⟩
  else
    .Ok (takeBytes data idx s)

/-- `DataSlice::replace::<T>` (src/slice.rs): checks the bounds, then runs
`core::ptr::replace` on the pointer
`(&mut self.inner as *mut [u8]).cast::<T>().add(idx)`, which sits at byte
offset `idx * size_of::<T>()`: the old bytes there are returned and the
bytes of the new value are stored there.  On failure only the `IdxError`
is returned; the value does not appear in the error.  The length of
`value` is `size_of::<T>()`. -/
def DataSlice.replace (data : List Nat) (idx : Nat) (value : List Nat) :
    List Nat × RustResult (List Nat) IdxError :=
  if boundsFail data.length idx value.length then
    (data, .Err ⟨idx, data.length, value.length⟩)
  else
    (storeBytes data (idx * value.length) value,
     .Ok (takeBytes data (idx * value.length) value.length))

/-- The default `RawDataStructure::replace_unchecked` (src/lib.rs):
`take_unchecked::<T>(idx)` followed by `write_unchecked(idx, value)`, both
at byte offset `idx`.  Returns the final region state and the taken
value. -/
def RawDataStructure.replace_unchecked (data : List Nat) (idx : Nat)
    (value : List Nat) : List Nat × List Nat :=
  (storeBytes data idx value, takeBytes data idx value.length)

/-- `DataSlice::read_validity` (src/slice.rs): `Ok(())` iff
`idx.checked_add(size)` does not overflow and the sum is strictly below
`self.size()`; otherwise the `IdxError` built from the inputs. -/
def DataSlice.read_validity (data : List Nat) (idx size : Nat) :
    RustResult Unit IdxError :=
  if (match checkedAdd idx size with
      | some s => decide (s < data.length)
      | none => false) then
    .Ok ()
  else
    .Err ⟨idx, data.length, size⟩

/-- `DataArray::<SIZE>::read_validity` (src/array.rs): the same arithmetic
as the `DataSlice` version with `self.size() = SIZE`. -/
def DataArray.read_validity (SIZE idx size : Nat) :
    RustResult Unit IdxError :=
  if (match checkedAdd idx size with
      | some s => decide (s < SIZE)
      | none => false) then
    .Ok ()
  else
    .Err ⟨idx, SIZE, size⟩

/-- The three branches of `impl Display for IdxError` (src/idx.rs). -/
inductive DisplayBranch where
  | idxTooLarge
  | spanTooLarge
  | fallback
  deriving DecidableEq

/-- Which branch of `impl Display for IdxError` (src/idx.rs) formatting
an error takes: the first branch when `idx > data_size`, the second when
`idx.checked_add(type_size)` overflows or the sum is `> data_size`, and
otherwise the final branch, whose body is `unimplemented!()` and
panics. -/
def IdxError.displayBranch (e : IdxError) : DisplayBranch :=
  if e.data_size < e.idx then
    .idxTooLarge
  else if (match checkedAdd e.idx e.type_size with
           | some s => decide (e.data_size < s)
           | none => true) then
    .spanTooLarge
  else
    .fallback

/-- `core::ops::Bound<usize>`, the canonical bound form produced by the
range normalizer of `src/idx.rs`. -/
inductive Bound where
  | unbounded : Bound
  | included : Nat → Bound
  | excluded : Nat → Bound
  deriving DecidableEq

/-- Start resolution of `DataSlice::get_const` (src/slice.rs): the first
`match` over the start bound, producing the included start index or
rejecting. -/
def resolveStart (size : Nat) (b : Bound) : Option Nat :=
  match b with
  | .unbounded => some 0
  | .included idx => if idx < size then some idx else none
  | .excluded idx => if saturatingAdd idx 1 < size then some (idx + 1) else none

/-- End resolution of `DataSlice::get_const` (src/slice.rs): the second
`match` over the end bound, producing the excluded end index or
rejecting. -/
def resolveEnd (size : Nat) (b : Bound) : Option Nat :=
  match b with
  | .unbounded => some size
  | .included idx => if idx < size then some (idx - 1) else none
  | .excluded idx => if idx ≤ size then some idx else none

/-- `DataSlice::get_const` (src/slice.rs): rejects a zero-size region,
resolves the two bounds, and on success returns the sub-region of
`end.saturating_sub(start)` bytes starting at byte offset `start`. -/
def DataSlice.get_const (data : List Nat) (start stop : Bound) :
    Option (List Nat) :=
  if data.length = 0 then none
  else
    match resolveStart data.length start with
    | none => none
    | some s =>
      match resolveEnd data.length stop with
      | none => none
      | some e => some (takeBytes data s (e - s))

/-- `DataSlice::get_mut_const` (src/slice.rs): byte for byte the same
resolution logic as `get_const`, returning a mutable view. -/
def DataSlice.get_mut_const (data : List Nat) (start stop : Bound) :
    Option (List Nat) :=
  if data.length = 0 then none
  else
    match resolveStart data.length start with
    | none => none
    | some s =>
      match resolveEnd data.length stop with
      | none => none
      | some e => some (takeBytes data s (e - s))

/-- `impl Idx for usize` (src/idx.rs): the start bound of a single index. -/
def Idx.usizeStart (i : Nat) : Bound := .included i

/-- `impl Idx for usize` (src/idx.rs): the end bound of a single index. -/
def Idx.usizeEnd (i : Nat) : Bound := .included i

/-- `impl Idx for RangeFull` (src/idx.rs): the start bound of `..`. -/
def Idx.rangeFullStart : Bound := .unbounded

/-- `impl Idx for RangeFull` (src/idx.rs): the end bound of `..`. -/
def Idx.rangeFullEnd : Bound := .unbounded

/-- `DataSlice::get` called with a single `usize` index (src/slice.rs via
src/idx.rs): the index normalizes to the pair
`(Included(i), Included(i))` handed to `get_const`. -/
def DataSlice.getUsize (data : List Nat) (i : Nat) : Option (List Nat) :=
  DataSlice.get_const data (Idx.usizeStart i) (Idx.usizeEnd i)

/-- `DataSlice::get_mut` called with a single `usize` index. -/
def DataSlice.getMutUsize (data : List Nat) (i : Nat) : Option (List Nat) :=
  DataSlice.get_mut_const data (Idx.usizeStart i) (Idx.usizeEnd i)

/-- `DataSlice::get` called with the full range `..` (src/slice.rs via
src/idx.rs). -/
def DataSlice.getFull (data : List Nat) : Option (List Nat) :=
  DataSlice.get_const data Idx.rangeFullStart Idx.rangeFullEnd

/-- The start-bound rejection test of the trait-level
`DataStructureSlice::get` (src/lib.rs). -/
def DataStructureSlice.startRejected (size : Nat) (b : Bound) : Bool :=
  match b with
  | .unbounded => false
  | .included idx => size ≤ idx
  | .excluded idx => size ≤ saturatingAdd idx 1

/-- The end-bound rejection test of the trait-level
`DataStructureSlice::get` (src/lib.rs). -/
def DataStructureSlice.endRejected (size : Nat) (b : Bound) : Bool :=
  match b with
  | .unbounded => false
  | .included idx => size ≤ idx
  | .excluded idx => size < idx

/-- `DataStructureSlice::get_unchecked` as implemented for `DataSlice`
(src/slice.rs): resolves the bounds without any checks and returns the
sub-region of `end.saturating_sub(start)` bytes at byte offset
`start`. -/
def DataStructureSlice.get_unchecked (data : List Nat) (start stop : Bound) :
    List Nat :=
  let s : Nat :=
    match start with
    | .unbounded => 0
    | .included idx => idx
    | .excluded idx => saturatingAdd idx 1
  let e : Nat :=
    match stop with
    | .unbounded => data.length
    | .included idx => idx - 1
    | .excluded idx => idx
  takeBytes data s (e - s)

/-- The trait-level `DataStructureSlice::get` (src/lib.rs): rejects a
zero-size region, then rejects out-of-range bounds, then delegates to
`get_unchecked`. -/
def DataStructureSlice.get (data : List Nat) (start stop : Bound) :
    Option (List Nat) :=
  if data.length = 0 then none
  else if DataStructureSlice.startRejected data.length start then none
  else if DataStructureSlice.endRejected data.length stop then none
  else some (DataStructureSlice.get_unchecked data start stop)

/-- The trait-level `DataStructureSlice::get_mut` (src/lib.rs): the same
checks as `get`, delegating to the mutable unchecked lookup, whose
resolution is byte for byte that of `get_unchecked`. -/
def DataStructureSlice.get_mut (data : List Nat) (start stop : Bound) :
    Option (List Nat) :=
  if data.length = 0 then none
  else if DataStructureSlice.startRejected data.length start then none
  else if DataStructureSlice.endRejected data.length stop then none
  else some (DataStructureSlice.get_unchecked data start stop)

/-- The error of `src/array.rs` reporting a size mismatch during
fixed-capacity construction; it carries the size of the source. -/
structure DiferentSizesError where
  gotten_size : Nat
  deriving DecidableEq

/-- `DataArray::<SIZE>::try_from_slice` (src/array.rs), identical to the
`TryFrom<&[u8]>` impl: errors with the source length when it differs from
`SIZE`, otherwise copies the source bytes. -/
def DataArray.try_from_slice (SIZE : Nat) (src : List Nat) :
    RustResult (List Nat) DiferentSizesError :=
  if src.length ≠ SIZE then
    .Err ⟨src.length⟩
  else
    .Ok src

/-- Claim C1: round-trip evaluated on the code.  On a 32-byte zeroed
region, the checked `write` of the 4-byte value `0xAABBCCDD` at index 4
stores its bytes at byte offsets 4..8, but the pointer returned by the
checked `read::<T>(4)` sits at byte offset `4 * size_of::<T>() = 16`
because `read` casts the base pointer to `*const T` before `add(idx)`;
the bytes reachable through it are zeroes, not the written bytes. -/
theorem write_read_roundtrip_code_eval :
    DataSlice.write (List.replicate 32 0) 4 [170, 187, 204, 221] =
      ([0, 0, 0, 0, 170, 187, 204, 221] ++ List.replicate 24 0, .Ok ()) ∧
    DataSlice.read 4 ([0, 0, 0, 0, 170, 187, 204, 221] ++ List.replicate 24 0) 4 =
      .Ok 16 ∧
    takeBytes ([0, 0, 0, 0, 170, 187, 204, 221] ++ List.replicate 24 0) 16 4 =
      [0, 0, 0, 0] ∧
    takeBytes ([0, 0, 0, 0, 170, 187, 204, 221] ++ List.replicate 24 0) 4 4 =
      [170, 187, 204, 221] ∧
    ([0, 0, 0, 0] : List Nat) ≠ [170, 187, 204, 221] := by
  decide

/-- Claim C2: `read_validity(idx, size)` on both backends succeeds iff
`idx + size` does not overflow and is strictly below the capacity, and on
failure returns exactly `IdxError { idx, data_size, type_size }`; in
particular capacity 4 with `(2, 2)` fails with `IdxError{2, 4, 2}`. -/
theorem read_validity_strict_bound_spec :
    ∀ (data : List Nat) (cap idx size : Nat),
    (DataSlice.read_validity data idx size =
      if idx + size < USIZE ∧ idx + size < data.length then .Ok ()
      else .Err ⟨idx, data.length, size⟩) ∧
    (DataArray.read_validity cap idx size =
      if idx + size < USIZE ∧ idx + size < cap then .Ok ()
      else .Err ⟨idx, cap, size⟩) ∧
    DataArray.read_validity 4 2 2 = .Err ⟨2, 4, 2⟩ := by
  intro data cap idx size
  refine ⟨?_, ?_, by decide⟩ <;>
  · simp only [DataSlice.read_validity, DataArray.read_validity, checkedAdd]
    by_cases h1 : idx + size < USIZE
    · simp [h1]
    · simp [h1]

/-- Claim C3: take/replace equivalence evaluated on the code.  On the
region `[0,1,2,3,4,5,6,7]` with a 2-byte value `[9,9]` at index 1, the
checked `DataSlice::replace` operates at byte offset
`idx * size_of::<T>() = 2` (its pointer is `cast::<T>().add(idx)`), so it
returns the bytes `[2,3]` and yields `[0,1,9,9,4,5,6,7]`, while `take`
followed by `write` operates at byte offset 1, returning `[1,2]` and
yielding `[0,9,9,3,4,5,6,7]`; the trait default `replace_unchecked`
agrees with take-then-write, not with `DataSlice::replace`. -/
theorem replace_vs_take_write_code_eval :
    DataSlice.replace [0, 1, 2, 3, 4, 5, 6, 7] 1 [9, 9] =
      ([0, 1, 9, 9, 4, 5, 6, 7], .Ok [2, 3]) ∧
    DataSlice.take 2 [0, 1, 2, 3, 4, 5, 6, 7] 1 = .Ok [1, 2] ∧
    DataSlice.write [0, 1, 2, 3, 4, 5, 6, 7] 1 [9, 9] =
      ([0, 9, 9, 3, 4, 5, 6, 7], .Ok ()) ∧
    RawDataStructure.replace_unchecked [0, 1, 2, 3, 4, 5, 6, 7] 1 [9, 9] =
      ([0, 9, 9, 3, 4, 5, 6, 7], [1, 2]) ∧
    ([0, 1, 9, 9, 4, 5, 6, 7] : List Nat) ≠ [0, 9, 9, 3, 4, 5, 6, 7] ∧
    ([2, 3] : List Nat) ≠ [1, 2] := by
  decide

/-- Claim C4, counterexample: on a region of capacity 8 the checked call
`write_zeroes(0, 8)` does not succeed, because `0 + 8` is not strictly
less than 8; the claim asserts that it succeeds. -/
theorem scenario4_write_zeroes_fails_cex :
    (DataSlice.write_zeroes (List.replicate 8 0) 0 8).2 ≠ .Ok () := by
  decide

/-- Claim C4 as amended: on a region of capacity 8 both checked calls
`write_zeroes(0, 8)` and `write_ones(4, 4)` fail the strict bounds check,
returning `IdxError{0, 8, 8}` and `IdxError{4, 8, 4}` respectively and
leaving the bytes of the region unchanged. -/
theorem scenario4_boundary_errors :
    DataSlice.write_zeroes (List.replicate 8 0) 0 8 =
      (List.replicate 8 0, .Err ⟨0, 8, 8⟩) ∧
    DataSlice.write_ones (List.replicate 8 0) 4 4 =
      (List.replicate 8 0, .Err ⟨4, 8, 4⟩) := by
  decide

/-- Claim C5, counterexample: a checked `DataSlice::replace` that fails
its bounds check does not return the value of the caller alongside the
error: two calls differing only in the value produce identical results,
so the value cannot be recovered from the output — it is forgotten. -/
theorem replace_error_forgets_value_cex :
    DataSlice.replace [0] 5 [1, 2] = DataSlice.replace [0] 5 [3, 4] ∧
    ([1, 2] : List Nat) ≠ [3, 4] := by
  decide

/-- Claim C5 as amended: every checked `write` or `replace` that fails
its bounds check leaves the bytes of the region unchanged; the failing
`write` hands the value of the caller back alongside the `IdxError`,
while the failing `DataSlice::replace` returns only the `IdxError` and
the value is forgotten (not dropped, not returned). -/
theorem failed_write_replace_preserve_bytes
    (data : List Nat) (idx : Nat) (value : List Nat)
    (h : boundsFail data.length idx value.length = true) :
    DataSlice.write data idx value =
      (data, .Err (value, ⟨idx, data.length, value.length⟩)) ∧
    DataSlice.replace data idx value =
      (data, .Err ⟨idx, data.length, value.length⟩) := by
  simp [DataSlice.write, DataSlice.replace, h]

theorem failed_write_replace_preserve_bytes_witness :
    boundsFail ([0] : List Nat).length 5 ([1, 2] : List Nat).length = true ∧
    (DataSlice.write [0] 5 [1, 2] =
      ([0], .Err ([1, 2], ⟨5, 1, 2⟩)) ∧
    DataSlice.replace [0] 5 [1, 2] =
      ([0], .Err ⟨5, 1, 2⟩)) :=
  ⟨by decide, failed_write_replace_preserve_bytes [0] 5 [1, 2] (by decide)⟩

/-- Claim C6 evaluated on the code: the boundary error
`IdxError{2, 4, 2}` (with `idx + type_size = data_size`) is actually
produced by `read_validity` on a capacity-4 region, and formatting it
through `Display` reaches the final `unimplemented!()` branch, because
`2 + 2 = 4` is not `> 4`; so the fallback is reachable for produced
errors, contrary to the claim. -/
theorem display_fallback_reached_code_eval :
    DataSlice.read_validity (List.replicate 4 0) 2 2 = .Err ⟨2, 4, 2⟩ ∧
    IdxError.displayBranch ⟨2, 4, 2⟩ = .fallback := by
  decide

/-- Claim C7: on a region of positive capacity, an inclusive end bound
`Included(i)` with `i < capacity` resolves to the saturating `i - 1` and
`Included(j)` with `j >= capacity` is rejected; consequently a single
`usize` index `i < capacity`, which normalizes to
`(Included(i), Included(i))`, yields `Some` empty sub-region from both
`get` and `get_mut`, and an index `j >= capacity` yields `None`. -/
theorem included_end_and_usize_get
    (data : List Nat) (i j : Nat) (hi : i < data.length)
    (hj : data.length ≤ j) :
    resolveEnd data.length (Bound.included i) = some (i - 1) ∧
    resolveEnd data.length (Bound.included j) = none ∧
    DataSlice.getUsize data i = some [] ∧
    DataSlice.getUsize data j = none ∧
    DataSlice.getMutUsize data i = some [] ∧
    DataSlice.getMutUsize data j = none := by
  have hlen : ¬ data.length = 0 := by omega
  have hjlt : ¬ j < data.length := by omega
  have hz : i - 1 - i = 0 := by omega
  refine ⟨by simp [resolveEnd, hi], by simp [resolveEnd, hjlt], ?_, ?_, ?_, ?_⟩ <;>
    simp [DataSlice.getUsize, DataSlice.getMutUsize, DataSlice.get_const,
      DataSlice.get_mut_const, Idx.usizeStart, Idx.usizeEnd, hlen,
      resolveStart, resolveEnd, hi, hjlt, hz, takeBytes]

theorem included_end_and_usize_get_witness :
    1 < ([7, 7, 7] : List Nat).length ∧ ([7, 7, 7] : List Nat).length ≤ 5 ∧
    (resolveEnd ([7, 7, 7] : List Nat).length (Bound.included 1) = some (1 - 1) ∧
    resolveEnd ([7, 7, 7] : List Nat).length (Bound.included 5) = none ∧
    DataSlice.getUsize [7, 7, 7] 1 = some [] ∧
    DataSlice.getUsize [7, 7, 7] 5 = none ∧
    DataSlice.getMutUsize [7, 7, 7] 1 = some [] ∧
    DataSlice.getMutUsize [7, 7, 7] 5 = none) :=
  ⟨by decide, by decide,
   included_end_and_usize_get [7, 7, 7] 1 5 (by decide) (by decide)⟩

/-- Claim C8: on a region of non-zero capacity, `get(..)` — the fully
unbounded range, normalized to `(Unbounded, Unbounded)` — returns `Some`
sub-region whose size equals the size of the parent, both through the
const `DataSlice` path and through the trait-level `get`. -/
theorem full_range_identity (data : List Nat) (h : 0 < data.length) :
    (∃ sl, DataSlice.getFull data = some sl ∧ sl.length = data.length) ∧
    (∃ sl, DataStructureSlice.get data Bound.unbounded Bound.unbounded =
      some sl ∧ sl.length = data.length) := by
  have hlen : ¬ data.length = 0 := by omega
  refine ⟨⟨data, ?_, rfl⟩, ⟨data, ?_, rfl⟩⟩
  · simp [DataSlice.getFull, DataSlice.get_const, Idx.rangeFullStart,
      Idx.rangeFullEnd, hlen, resolveStart, resolveEnd, takeBytes]
  · simp [DataStructureSlice.get, DataStructureSlice.startRejected,
      DataStructureSlice.endRejected, DataStructureSlice.get_unchecked,
      hlen, takeBytes]

theorem full_range_identity_witness :
    0 < ([1, 2, 3] : List Nat).length ∧
    ((∃ sl, DataSlice.getFull [1, 2, 3] = some sl ∧
      sl.length = ([1, 2, 3] : List Nat).length) ∧
    (∃ sl, DataStructureSlice.get [1, 2, 3] Bound.unbounded Bound.unbounded =
      some sl ∧ sl.length = ([1, 2, 3] : List Nat).length)) :=
  ⟨by decide, full_range_identity [1, 2, 3] (by decide)⟩

/-- Claim C9: a region of capacity 0 rejects every range lookup — for
every canonical bound pair, `get_const`, `get_mut_const` and the
trait-level `get` and `get_mut` all return `None`. -/
theorem empty_region_rejects_all_ranges :
    ∀ (s e : Bound),
    DataSlice.get_const [] s e = none ∧
    DataSlice.get_mut_const [] s e = none ∧
    DataStructureSlice.get [] s e = none ∧
    DataStructureSlice.get_mut [] s e = none := by
  intro s e
  refine ⟨?_, ?_, ?_, ?_⟩ <;>
    simp [DataSlice.get_const, DataSlice.get_mut_const,
      DataStructureSlice.get, DataStructureSlice.get_mut]

/-- Claim C10: constructing a fixed-capacity `DataArray` of size `SIZE`
from a byte source of size `M` fails with an error carrying `M` whenever
`M ≠ SIZE`, and succeeds with a byte-for-byte copy when `M = SIZE`; in
particular a capacity-4 array from a 5-byte source fails carrying 5. -/
theorem try_from_slice_size_mismatch :
    (∀ (SIZE : Nat) (src : List Nat),
      DataArray.try_from_slice SIZE src =
        if src.length = SIZE then .Ok src else .Err ⟨src.length⟩) ∧
    DataArray.try_from_slice 4 [1, 2, 3, 4, 5] = .Err ⟨5⟩ ∧
    DataArray.try_from_slice 4 [1, 2, 3, 4] = .Ok [1, 2, 3, 4] := by
  refine ⟨?_, by decide, by decide⟩
  intro SIZE src
  by_cases h : src.length = SIZE <;> simp [DataArray.try_from_slice, h]
